import Mathlib

/-!
Verification of the BIGDATA_CLOUD scoring pipeline.

Shallow embedding of the prediction/scoring pipeline shared between the
Flask Scoring Service (`API/API.py`) and the Streamlit Presentation Client
(`Projet bancaire/client_prediction.py`).  Currency amounts and scores are
modelled as rationals (ℚ); Python's `round(x, n)` (banker's rounding,
round-half-to-even) is modelled exactly on ℚ by `pythonRound`.  A missing
cell or missing column value is an `Option` that is `none`.
-/

/-- Model of Python's built-in rounding of a real to the nearest integer:
round half to even (banker's rounding), as used by `round(x, n)`. -/
def roundHalfEven (q : ℚ) : ℤ :=
  if q - ⌊q⌋ < 1/2 then ⌊q⌋
  else if 1/2 < q - ⌊q⌋ then ⌊q⌋ + 1
  else if ⌊q⌋ % 2 = 0 then ⌊q⌋ else ⌊q⌋ + 1

/-- Model of Python's `round(x, ndigits)` on exact rationals. -/
def pythonRound (x : ℚ) (ndigits : ℕ) : ℚ :=
  (roundHalfEven (x * 10 ^ ndigits) : ℚ) / 10 ^ ndigits

/-- One CSV row of `application_train.csv`, restricted to the columns the
scoring pipeline reads.  `none` models a missing column/value (Python's
`row.get(col, 0)` default together with `or 0`). -/
structure Row where
  sk_id_curr : Option ℤ
  amt_credit : Option ℚ
  amt_income_total : Option ℚ
deriving DecidableEq, Repr

/-- The loaded pandas DataFrame: its rows, plus the two columns the
percentile computation reads through `df.get("AMT_CREDIT")` /
`df.get("AMT_INCOME_TOTAL")` (`none` models an absent column). -/
structure DataFrame where
  rows : List Row
  creditCol : Option (List ℚ)
  incomeCol : Option (List ℚ)
deriving DecidableEq, Repr

/-- `API.py` `simple_risk_score`: credit/income ratio capped at 5, mapped to
a probability `round(min(ratio/5, 1), 3)`; `0.5` when income is unknown or
nonpositive. -/
def simple_risk_score (row : Row) : ℚ :=
  let credit := row.amt_credit.getD 0
  let income := row.amt_income_total.getD 0
  if income ≤ 0 then 1/2
  else
    let ratio := min (credit / income) 5
    pythonRound (min (ratio / 5) 1) 3

/-- `API.py` `compute_percentile`: `round((series < value).mean() * 100, 1)`,
`None` when the series is absent (`None`) or empty. -/
def compute_percentile (series : Option (List ℚ)) (value : ℚ) : Option ℚ :=
  match series with
  | none => none
  | some s =>
    if s.isEmpty then none
    else some (pythonRound ((s.countP (fun x => decide (x < value)) : ℚ) / s.length * 100) 1)

/-- The `client_id` field of a prediction: the row's `SK_ID_CURR` as an
integer, or the string `"inconnu"` when the column is missing. -/
inductive ClientId where
  | intId (i : ℤ)
  | strId (s : String)
deriving DecidableEq, Repr

/-- The JSON payload returned by `format_prediction` in `API.py`. -/
structure Prediction where
  client_id : ClientId
  probability_default : ℚ
  prediction : String
  risk_level : String
  ratio_credit_income : Option ℚ
  credit_percentile : Option ℚ
  income_percentile : Option ℚ
  explanation : String
deriving DecidableEq, Repr

/-- `API.py` `format_prediction`: decision label, uncapped rounded
credit/income ratio, percentiles, risk tier and explanation string.
(Numeric rendering inside the explanation is abstracted by Lean's
`ToString ℚ`; no property proved here depends on it.) -/
def format_prediction (row : Row) (score : ℚ) (df : DataFrame) : Prediction :=
  let decision := if 1/2 ≤ score then "defaut" else "remboursement_normal"
  let client_id : ClientId :=
    match row.sk_id_curr with
    | some i => ClientId.intId i
    | none => ClientId.strId "inconnu"
  let credit := row.amt_credit.getD 0
  let income := row.amt_income_total.getD 0
  let ratio : Option ℚ := if 0 < income then some (pythonRound (credit / income) 3) else none
  let pct_credit := compute_percentile df.creditCol credit
  let pct_income := compute_percentile df.incomeCol income
  let tier := if 7/10 ≤ score then "eleve" else if 2/5 ≤ score then "modere" else "faible"
  let explanation_parts : List String :=
    [ (match ratio with
       | some r => s!"Ratio credit/revenu = {r}"
       | none => "Ratio non calculable"),
      (match pct_credit with
       | some p => s!"Credit percentile ~ {p}%"
       | none => "Percentile credit indisponible"),
      (match pct_income with
       | some p => s!"Revenu percentile ~ {p}%"
       | none => "Percentile revenu indisponible") ]
  { client_id := client_id
    probability_default := score
    prediction := decision
    risk_level := tier
    ratio_credit_income := ratio
    credit_percentile := pct_credit
    income_percentile := pct_income
    explanation := String.intercalate " | " explanation_parts }

/-- Responses of the Scoring Service routes: `okJson r ~ (jsonify(r), 200)`,
`err400 m / err404 m / err500 m ~ (jsonify({"error": m}), status)`. -/
inductive ApiResponse where
  | ok200 (p : Prediction)
  | err400 (msg : String)
  | err404 (msg : String)
  | err500 (msg : String)
deriving DecidableEq, Repr

/-- `API.py` `predict_default` route body: empty-dataset check, then
missing-parameter check, then row lookup by `SK_ID_CURR`, then scoring. -/
def predict_default (client_id : Option ℤ) (df : DataFrame) : ApiResponse :=
  if df.rows.isEmpty then ApiResponse.err400 "Dataset introuvable ou vide"
  else
    match client_id with
    | none => ApiResponse.err400 "Paramètre client_id requis"
    | some cid =>
      match df.rows.filter (fun r => r.sk_id_curr == some cid) with
      | [] => ApiResponse.err404 s!"Client {cid} introuvable"
      | row :: _ =>
        let score := simple_risk_score row
        ApiResponse.ok200 (format_prediction row score df)

/-- Outcome of running a Python handler body: a returned value, or a raised
exception carrying `str(exc)`. -/
inductive PyResult (α : Type) where
  | ok (val : α)
  | exc (msg : String)
deriving DecidableEq, Repr

/-- `API.py` `api_error_handler` decorator: run the wrapped handler; any
exception becomes `(jsonify({"error": str(exc)}), 500)`.  The codomain is a
plain `ApiResponse`, i.e. the wrapped route can never re-raise. -/
def api_error_handler {α : Type} (func : α → PyResult ApiResponse) : α → ApiResponse :=
  fun x =>
    match func x with
    | PyResult.ok r => r
    | PyResult.exc msg => ApiResponse.err500 msg

/-- `client_prediction.py` `risk_level`: the Presentation Client's tier
labels at the same thresholds as the service. -/
def risk_level (score : ℚ) : String :=
  if 7/10 ≤ score then "Eleve"
  else if 2/5 ≤ score then "Modere"
  else "Faible"

/-- The dict returned by `compute_local_risk` in `client_prediction.py`. -/
structure LocalRisk where
  risk_score : ℚ
  risk_level : String
  recommendation : String
  source : String
deriving DecidableEq, Repr

/-- `client_prediction.py` `compute_local_risk`: the Presentation Client's
local fallback scoring used when the Scoring Service is unreachable. -/
def compute_local_risk (row : Row) : LocalRisk :=
  let income := row.amt_income_total.getD 0
  let credit := row.amt_credit.getD 0
  let ratio := if 0 < income then credit / income else 1/2
  let score := min (max (ratio / 5) 0) 1
  { risk_score := pythonRound score 3
    risk_level := risk_level score
    recommendation := "Score calcule localement sur le ratio credit/revenu."
    source := "local" }

/-- The list mean used by pandas' `.mean()`, for the spec-side percentile. -/
def listMean (l : List ℚ) : ℚ := l.sum / l.length

/-- Modelled from the spec's words (for the refinement claim about
`compute_percentile`): "`percentile(C, v) = round(mean(C < v) * 100, 1)` —
the fraction of the reference population strictly below `v`, expressed as a
percentage; `null` if `C` is absent or empty." -/
def percentile_spec (series : Option (List ℚ)) (value : ℚ) : Option ℚ :=
  match series with
  | none => none
  | some s =>
    if s.isEmpty then none
    else some (pythonRound (listMean (s.map (fun x => if x < value then 1 else 0)) * 100) 1)

/-! ### Arithmetic lemmas about the rounding model -/

theorem roundHalfEven_intCast (m : ℤ) : roundHalfEven (m : ℚ) = m := by
  have h : ⌊(m : ℚ)⌋ = m := Int.floor_intCast m
  simp [roundHalfEven, h]

theorem floor_le_roundHalfEven (q : ℚ) : ⌊q⌋ ≤ roundHalfEven q := by
  unfold roundHalfEven
  split_ifs <;> omega

theorem roundHalfEven_le_floor_add_one (q : ℚ) : roundHalfEven q ≤ ⌊q⌋ + 1 := by
  unfold roundHalfEven
  split_ifs <;> omega

theorem roundHalfEven_nonneg {q : ℚ} (h : 0 ≤ q) : 0 ≤ roundHalfEven q := by
  have := floor_le_roundHalfEven q
  have h0 : 0 ≤ ⌊q⌋ := Int.floor_nonneg.mpr h
  omega

theorem roundHalfEven_mono {x y : ℚ} (h : x ≤ y) :
    roundHalfEven x ≤ roundHalfEven y := by
  rcases lt_or_le ⌊x⌋ ⌊y⌋ with hf | hf
  · have h1 := roundHalfEven_le_floor_add_one x
    have h2 := floor_le_roundHalfEven y
    omega
  · have hxy : ⌊y⌋ = ⌊x⌋ := le_antisymm hf (Int.floor_le_floor h)
    have hd : x - ⌊x⌋ ≤ y - ⌊y⌋ := by
      rw [hxy]
      linarith
    unfold roundHalfEven
    rw [hxy]
    split_ifs <;> first | omega | linarith

theorem roundHalfEven_le_of_le_int {q : ℚ} {m : ℤ} (h : q ≤ (m : ℚ)) :
    roundHalfEven q ≤ m := by
  have hm := roundHalfEven_mono h
  rwa [roundHalfEven_intCast] at hm

theorem pythonRound_of_int (x : ℚ) (n : ℕ) (m : ℤ) (h : x * 10 ^ n = (m : ℚ)) :
    pythonRound x n = (m : ℚ) / 10 ^ n := by
  rw [pythonRound, h, roundHalfEven_intCast]

theorem pythonRound_nonneg {x : ℚ} (n : ℕ) (h : 0 ≤ x) : 0 ≤ pythonRound x n := by
  have hp : (0 : ℚ) < 10 ^ n := by positivity
  have h1 : 0 ≤ x * 10 ^ n := by positivity
  have h2 : (0 : ℤ) ≤ roundHalfEven (x * 10 ^ n) := roundHalfEven_nonneg h1
  have h3 : (0 : ℚ) ≤ (roundHalfEven (x * 10 ^ n) : ℚ) := by exact_mod_cast h2
  rw [pythonRound]
  positivity

theorem pythonRound_le_one {x : ℚ} (n : ℕ) (h : x ≤ 1) : pythonRound x n ≤ 1 := by
  have hp : (0 : ℚ) < 10 ^ n := by positivity
  have h1 : x * 10 ^ n ≤ (((10 : ℤ) ^ n : ℤ) : ℚ) := by
    push_cast
    nlinarith
  have h2 := roundHalfEven_le_of_le_int h1
  have h3 : (roundHalfEven (x * 10 ^ n) : ℚ) ≤ (10 : ℚ) ^ n := by
    exact_mod_cast h2
  rw [pythonRound]
  rw [div_le_one hp]
  exact h3

theorem pythonRound_mono {x y : ℚ} (n : ℕ) (h : x ≤ y) :
    pythonRound x n ≤ pythonRound y n := by
  have hp : (0 : ℚ) < 10 ^ n := by positivity
  have h1 : x * 10 ^ n ≤ y * 10 ^ n := by nlinarith
  have h2 := roundHalfEven_mono h1
  have h3 : (roundHalfEven (x * 10 ^ n) : ℚ) ≤ (roundHalfEven (y * 10 ^ n) : ℚ) := by
    exact_mod_cast h2
  rw [pythonRound, pythonRound]
  exact div_le_div_of_nonneg_right h3 hp.le

/-! ### Claim theorems -/

/-- C5: for every client row with `income_amount <= 0`, `simple_risk_score`
returns exactly `0.5` and `format_prediction`'s `ratio_credit_income` field
is `null`. -/
theorem C5_income_nonpos_neutral (row : Row) (score : ℚ) (df : DataFrame)
    (h : row.amt_income_total.getD 0 ≤ 0) :
    simple_risk_score row = 1/2 ∧
      (format_prediction row score df).ratio_credit_income = none := by
  have h' : ¬ (0 < row.amt_income_total.getD 0) := not_lt.mpr h
  constructor
  · simp [simple_risk_score, h]
  · simp [format_prediction, h']

/-- Witness for C5 at a concrete row with `income_amount = 0`. -/
theorem C5_witness :
    simple_risk_score ⟨some 1, some 100000, some 0⟩ = 1/2 ∧
      (format_prediction ⟨some 1, some 100000, some 0⟩ (1/2)
        ⟨[], none, none⟩).ratio_credit_income = none :=
  C5_income_nonpos_neutral ⟨some 1, some 100000, some 0⟩ (1/2) ⟨[], none, none⟩ (by norm_num)

/-- C6: for every probability score in `[0,1]`, the decision label is
`"defaut"` iff `score >= 0.5` (else `"remboursement_normal"`), and the risk
tier is `"eleve"` iff `score >= 0.7`, `"modere"` iff `0.4 <= score < 0.7`,
`"faible"` iff `score < 0.4`: the three tiers partition `[0,1]`. -/
theorem C6_decision_and_tier_thresholds (row : Row) (score : ℚ) (df : DataFrame)
    (h0 : 0 ≤ score) (h1 : score ≤ 1) :
    ((format_prediction row score df).prediction = "defaut" ↔ 1/2 ≤ score) ∧
    ((format_prediction row score df).prediction = "remboursement_normal" ↔ score < 1/2) ∧
    ((format_prediction row score df).risk_level = "eleve" ↔ 7/10 ≤ score) ∧
    ((format_prediction row score df).risk_level = "modere" ↔ (2/5 ≤ score ∧ score < 7/10)) ∧
    ((format_prediction row score df).risk_level = "faible" ↔ score < 2/5) := by
  refine ⟨?_, ?_, ?_, ?_, ?_⟩ <;>
    simp only [format_prediction] <;>
    split_ifs with ha hb <;>
    simp_all <;>
    linarith

/-- Witness for C6 at the concrete score `0.5`. -/
theorem C6_witness :
    ((format_prediction ⟨some 1, none, none⟩ (1/2) ⟨[], none, none⟩).prediction
        = "defaut" ↔ (1/2 : ℚ) ≤ 1/2) ∧
    ((format_prediction ⟨some 1, none, none⟩ (1/2) ⟨[], none, none⟩).prediction
        = "remboursement_normal" ↔ (1/2 : ℚ) < 1/2) ∧
    ((format_prediction ⟨some 1, none, none⟩ (1/2) ⟨[], none, none⟩).risk_level
        = "eleve" ↔ (7/10 : ℚ) ≤ 1/2) ∧
    ((format_prediction ⟨some 1, none, none⟩ (1/2) ⟨[], none, none⟩).risk_level
        = "modere" ↔ ((2/5 : ℚ) ≤ 1/2 ∧ (1/2 : ℚ) < 7/10)) ∧
    ((format_prediction ⟨some 1, none, none⟩ (1/2) ⟨[], none, none⟩).risk_level
        = "faible" ↔ (1/2 : ℚ) < 2/5) :=
  C6_decision_and_tier_thresholds ⟨some 1, none, none⟩ (1/2) ⟨[], none, none⟩
    (by norm_num) (by norm_num)

/-- C9: every exception raised by a wrapped route body is converted by
`api_error_handler` into the 500 response carrying the fault's message, and
a normal return passes through unchanged; the wrapper's codomain is a plain
response, so no fault propagates. -/
theorem C9_wrapper_catches_all {α : Type} (func : α → PyResult ApiResponse) (x : α) :
    (∀ msg, func x = PyResult.exc msg →
        api_error_handler func x = ApiResponse.err500 msg) ∧
    (∀ r, func x = PyResult.ok r → api_error_handler func x = r) := by
  constructor <;> intro v h <;> simp [api_error_handler, h]

/-- Witness for C9 on a handler that always raises. -/
theorem C9_witness :
    api_error_handler (fun _ : Nat => PyResult.exc "boom") 0 = ApiResponse.err500 "boom" :=
  (C9_wrapper_catches_all (fun _ : Nat => PyResult.exc "boom") 0).1 "boom" rfl

/-- C10: in `predict_default` the empty-dataset check runs before the
missing-parameter check: an empty dataset with an absent `client_id` yields
the dataset-unavailable 400 message, which differs from the missing
`client_id` message. -/
theorem C10_empty_check_precedes_param_check (df : DataFrame) (h : df.rows = []) :
    predict_default none df = ApiResponse.err400 "Dataset introuvable ou vide" ∧
      ApiResponse.err400 "Dataset introuvable ou vide" ≠
        ApiResponse.err400 "Paramètre client_id requis" := by
  constructor
  · simp [predict_default, h]
  · intro hc
    simp at hc

/-- Witness for C10 at the concrete empty dataframe. -/
theorem C10_witness :
    predict_default none ⟨[], none, none⟩ =
        ApiResponse.err400 "Dataset introuvable ou vide" ∧
      ApiResponse.err400 "Dataset introuvable ou vide" ≠
        ApiResponse.err400 "Paramètre client_id requis" :=
  C10_empty_check_precedes_param_check ⟨[], none, none⟩ rfl

/-- C4: an unknown `client_id` against a non-empty dataset yields the 404
not-found response; any `client_id` (present or missing) against an empty
dataset yields the 400 dataset-unavailable response; the two responses are
distinct constructors, never confused. -/
theorem C4_notfound_vs_dataset_unavailable :
    (∀ (df : DataFrame) (cid : ℤ), df.rows ≠ [] →
        (∀ r ∈ df.rows, r.sk_id_curr ≠ some cid) →
        predict_default (some cid) df = ApiResponse.err404 s!"Client {cid} introuvable") ∧
    (∀ (df : DataFrame) (client_id : Option ℤ), df.rows = [] →
        predict_default client_id df = ApiResponse.err400 "Dataset introuvable ou vide") ∧
    (∀ m1 m2, ApiResponse.err404 m1 ≠ ApiResponse.err400 m2) := by
  refine ⟨?_, ?_, ?_⟩
  · intro df cid hne hid
    have hfil : df.rows.filter (fun r => r.sk_id_curr == some cid) = [] := by
      apply List.filter_eq_nil.mpr
      intro r hr
      simpa using hid r hr
    simp [predict_default, List.isEmpty_iff, hne, hfil]
  · intro df client_id h
    simp [predict_default, h]
  · intro m1 m2 hc
    simp at hc

/-- Witness for C4: unknown id 99 against a one-row dataset gives 404, and
a missing id against the empty dataset gives the 400 dataset error. -/
theorem C4_witness :
    predict_default (some 99) ⟨[⟨some 1, none, none⟩], none, none⟩ =
        ApiResponse.err404 s!"Client {(99 : ℤ)} introuvable" ∧
      predict_default none ⟨[], none, none⟩ =
        ApiResponse.err400 "Dataset introuvable ou vide" :=
  ⟨C4_notfound_vs_dataset_unavailable.1 ⟨[⟨some 1, none, none⟩], none, none⟩ 99
      (by simp) (by simp),
    C4_notfound_vs_dataset_unavailable.2.1 ⟨[], none, none⟩ none rfl⟩

/-- The sum of 0/1 indicators of a predicate equals `countP`. -/
theorem sum_indicator_eq_countP (l : List ℚ) (v : ℚ) :
    (l.map (fun x => if x < v then (1 : ℚ) else 0)).sum =
      (l.countP (fun x => decide (x < v)) : ℚ) := by
  induction l with
  | nil => simp
  | cons a t ih =>
    by_cases h : a < v <;>
      simp [List.countP_cons, h, ih] <;>
      push_cast <;>
      ring

/-- C7: `compute_percentile` coincides with the spec's formula
`round(mean(C < v) * 100, 1)` (strict `<`, ties not counted), and returns
`null` exactly when the reference column is absent or empty. -/
theorem C7_percentile_refines_spec (series : Option (List ℚ)) (v : ℚ) :
    compute_percentile series v = percentile_spec series v ∧
      (compute_percentile series v = none ↔ series = none ∨ series = some []) := by
  constructor
  · cases series with
    | none => rfl
    | some s =>
      simp only [compute_percentile, percentile_spec]
      by_cases hs : s.isEmpty
      · simp [hs]
      · simp only [hs, if_false]
        congr 2
        rw [listMean, sum_indicator_eq_countP]
        simp
  · cases series with
    | none => simp [compute_percentile]
    | some s =>
      simp only [compute_percentile]
      by_cases hs : s.isEmpty
      · simp [hs, List.isEmpty_iff.mp hs]
      · simp [hs, List.isEmpty_iff]
        intro hnil
        exact hs (List.isEmpty_iff.mpr hnil)

/-- C8: for a fixed non-empty reference column, the percentile is
monotonically non-decreasing in the probed value. -/
theorem C8_percentile_monotone (s : List ℚ) (v1 v2 : ℚ) (h : v1 ≤ v2) (p1 p2 : ℚ)
    (h1 : compute_percentile (some s) v1 = some p1)
    (h2 : compute_percentile (some s) v2 = some p2) :
    p1 ≤ p2 := by
  simp only [compute_percentile] at h1 h2
  by_cases hs : s.isEmpty
  · simp [hs] at h1
  · rw [Bool.not_eq_true] at hs
    simp only [hs, Bool.false_eq_true, if_false, Option.some.injEq] at h1 h2
    subst h1
    subst h2
    apply pythonRound_mono
    have hcount : s.countP (fun x => decide (x < v1)) ≤ s.countP (fun x => decide (x < v2)) := by
      apply List.countP_mono_left
      intro x _ hx
      have hx1 : x < v1 := of_decide_eq_true hx
      exact decide_eq_true (lt_of_lt_of_le hx1 h)
    have hcq : ((s.countP (fun x => decide (x < v1)) : ℕ) : ℚ) ≤
        ((s.countP (fun x => decide (x < v2)) : ℕ) : ℚ) := by exact_mod_cast hcount
    have hdiv : ((s.countP (fun x => decide (x < v1)) : ℕ) : ℚ) / s.length ≤
        ((s.countP (fun x => decide (x < v2)) : ℕ) : ℚ) / s.length :=
      div_le_div_of_nonneg_right hcq (by positivity)
    nlinarith [hdiv]

/-- Witness for C8: the percentile of the column `[0]` at values `1 ≤ 2`. -/
theorem C8_witness :
    (1 : ℚ) ≤ 2 ∧
      compute_percentile (some [(0 : ℚ)]) 1 = some 100 ∧
      compute_percentile (some [(0 : ℚ)]) 2 = some 100 ∧
      (100 : ℚ) ≤ 100 := by
  have h1 : compute_percentile (some [(0 : ℚ)]) 1 = some 100 := by
    simp only [compute_percentile, List.isEmpty_cons, if_false, Option.some.injEq,
      Bool.false_eq_true]
    rw [show (List.countP (fun x => decide (x < 1)) [(0 : ℚ)] : ℚ) = 1 by
      norm_num [List.countP_cons]]
    rw [show ((1 : ℚ) / (List.length [(0 : ℚ)]) * 100) = 100 by norm_num]
    rw [pythonRound_of_int 100 1 1000 (by norm_num)]
    norm_num
  have h2 : compute_percentile (some [(0 : ℚ)]) 2 = some 100 := by
    simp only [compute_percentile, List.isEmpty_cons, if_false, Option.some.injEq,
      Bool.false_eq_true]
    rw [show (List.countP (fun x => decide (x < 2)) [(0 : ℚ)] : ℚ) = 1 by
      norm_num [List.countP_cons]]
    rw [show ((1 : ℚ) / (List.length [(0 : ℚ)]) * 100) = 100 by norm_num]
    rw [pythonRound_of_int 100 1 1000 (by norm_num)]
    norm_num
  exact ⟨by norm_num, h1, h2, C8_percentile_monotone [(0 : ℚ)] 1 2 (by norm_num) 100 100 h1 h2⟩

/-- C1 counterexample: at a row with `income_amount = 0` the Presentation
Client's local fallback returns `0.1` while the Scoring Service's formula
returns `0.5`: the two probabilities differ. -/
theorem C1_counterexample :
    (compute_local_risk ⟨some 1, some 100000, some 0⟩).risk_score ≠
      simple_risk_score ⟨some 1, some 100000, some 0⟩ := by
  have hl : (compute_local_risk ⟨some 1, some 100000, some 0⟩).risk_score = 1/10 := by
    simp only [compute_local_risk, Option.getD_some]
    rw [if_neg (by norm_num)]
    rw [show min (max ((1 : ℚ)/2/5) 0) 1 = 1/10 by
      rw [max_eq_left (by norm_num), min_eq_left (by norm_num)]
      norm_num]
    rw [pythonRound_of_int (1/10) 3 100 (by norm_num)]
    norm_num
  have hs : simple_risk_score ⟨some 1, some 100000, some 0⟩ = 1/2 := by
    simp [simple_risk_score]
  rw [hl, hs]
  norm_num

/-- C1 (amended): for every row whose `income_amount` is positive and whose
`credit_amount` is nonnegative, the local fallback's `risk_score` equals
the service's `simple_risk_score` exactly. -/
theorem C1_local_matches_service (row : Row)
    (hinc : 0 < row.amt_income_total.getD 0)
    (hcred : 0 ≤ row.amt_credit.getD 0) :
    (compute_local_risk row).risk_score = simple_risk_score row := by
  simp only [compute_local_risk, simple_risk_score, if_pos hinc, if_neg (not_le.mpr hinc)]
  have hr : 0 ≤ row.amt_credit.getD 0 / row.amt_income_total.getD 0 :=
    div_nonneg hcred hinc.le
  congr 1
  rw [max_eq_left (by positivity)]
  rcases le_total (row.amt_credit.getD 0 / row.amt_income_total.getD 0) 5 with h5 | h5
  · rw [min_eq_left h5]
  · rw [min_eq_right h5]
    have h1 : (1 : ℚ) ≤ row.amt_credit.getD 0 / row.amt_income_total.getD 0 / 5 := by
      rw [le_div_iff (by norm_num : (0:ℚ) < 5)]
      linarith
    rw [min_eq_right h1]
    norm_num

/-- Witness for the amended C1 at a concrete row with positive income. -/
theorem C1_witness :
    (compute_local_risk ⟨some 1, some 100000, some 20000⟩).risk_score =
      simple_risk_score ⟨some 1, some 100000, some 20000⟩ :=
  C1_local_matches_service ⟨some 1, some 100000, some 20000⟩ (by norm_num) (by norm_num)

/-- C2 counterexample: at `credit = 100000`, `income = 10000`, the
`ratio_credit_income` field is `10.0` (uncapped, rounded), not
`min(credit/income, 5.0) = 5.0`. -/
theorem C2_counterexample :
    (format_prediction ⟨some 2, some 100000, some 10000⟩ 1
        ⟨[], none, none⟩).ratio_credit_income ≠
      some (min ((100000 : ℚ) / 10000) 5) := by
  have hf : (format_prediction ⟨some 2, some 100000, some 10000⟩ 1
      ⟨[], none, none⟩).ratio_credit_income = some 10 := by
    simp only [format_prediction, Option.getD_some]
    rw [if_pos (by norm_num : (0:ℚ) < 10000)]
    rw [show (100000 : ℚ) / 10000 = 10 by norm_num]
    rw [pythonRound_of_int 10 3 10000 (by norm_num)]
    norm_num
  rw [hf, show min ((100000 : ℚ) / 10000) 5 = 5 by
    rw [min_eq_right (by norm_num)]]
  simp

/-- C2 (amended): for every row with positive `income_amount`, the
`ratio_credit_income` field equals `round(credit/income, 3)` — the ratio
rounded to three decimals and not capped at 5.0. -/
theorem C2_ratio_rounded_uncapped (row : Row) (score : ℚ) (df : DataFrame)
    (h : 0 < row.amt_income_total.getD 0) :
    (format_prediction row score df).ratio_credit_income =
      some (pythonRound (row.amt_credit.getD 0 / row.amt_income_total.getD 0) 3) := by
  simp [format_prediction, h]

/-- Witness for the amended C2 at a concrete row. -/
theorem C2_witness :
    (format_prediction ⟨some 2, some 100000, some 10000⟩ 1
        ⟨[], none, none⟩).ratio_credit_income =
      some (pythonRound ((Option.some (100000 : ℚ)).getD 0 /
        (Option.some (10000 : ℚ)).getD 0) 3) :=
  C2_ratio_rounded_uncapped ⟨some 2, some 100000, some 10000⟩ 1 ⟨[], none, none⟩
    (by norm_num)

/-- C3 counterexample: with a negative `credit_amount` (`-5000`) and income
`1000`, `simple_risk_score` returns `-1.0`, outside `[0,1]`: the invariant
fails for arbitrary credit values. -/
theorem C3_counterexample :
    ¬ (0 ≤ simple_risk_score ⟨some 3, some (-5000), some 1000⟩ ∧
        simple_risk_score ⟨some 3, some (-5000), some 1000⟩ ≤ 1) := by
  have hs : simple_risk_score ⟨some 3, some (-5000), some 1000⟩ = -1 := by
    simp only [simple_risk_score, Option.getD_some]
    rw [if_neg (by norm_num)]
    rw [show (-5000 : ℚ) / 1000 = -5 by norm_num]
    rw [min_eq_left (by norm_num : (-5 : ℚ) ≤ 5)]
    rw [show (-5 : ℚ) / 5 = -1 by norm_num]
    rw [min_eq_left (by norm_num : (-1 : ℚ) ≤ 1)]
    rw [pythonRound_of_int (-1) 3 (-1000) (by norm_num)]
    norm_num
  rw [hs]
  norm_num

/-- C3 (amended): for every row whose `credit_amount` is nonnegative (as in
the data model), `simple_risk_score` lies in `[0, 1]` for every income. -/
theorem C3_probability_in_unit_interval (row : Row)
    (hcred : 0 ≤ row.amt_credit.getD 0) :
    0 ≤ simple_risk_score row ∧ simple_risk_score row ≤ 1 := by
  unfold simple_risk_score
  by_cases h : row.amt_income_total.getD 0 ≤ 0
  · rw [if_pos h]
    norm_num
  · rw [if_neg h]
    push_neg at h
    have hr : 0 ≤ row.amt_credit.getD 0 / row.amt_income_total.getD 0 :=
      div_nonneg hcred h.le
    have hlow : 0 ≤ min (min (row.amt_credit.getD 0 / row.amt_income_total.getD 0) 5 / 5) 1 := by
      apply le_min _ zero_le_one
      have : (0 : ℚ) ≤ min (row.amt_credit.getD 0 / row.amt_income_total.getD 0) 5 :=
        le_min hr (by norm_num)
      positivity
    have hhigh : min (min (row.amt_credit.getD 0 / row.amt_income_total.getD 0) 5 / 5) 1 ≤ 1 :=
      min_le_right _ _
    exact ⟨pythonRound_nonneg 3 hlow, pythonRound_le_one 3 hhigh⟩

/-- Witness for the amended C3 at a concrete row. -/
theorem C3_witness :
    0 ≤ simple_risk_score ⟨some 3, some 100000, some 20000⟩ ∧
      simple_risk_score ⟨some 3, some 100000, some 20000⟩ ≤ 1 :=
  C3_probability_in_unit_interval ⟨some 3, some 100000, some 20000⟩ (by norm_num)
